/- Verification development for the Amazon-Analytics Streamlit dashboard.

   The transaction table `cleaned/transactions_cleaned.csv` is modelled as a
   list of rows; pandas column operations become list maps, filters and folds.
   Dates are day-granular integers (so `(a - b).days` on two dates is plain
   integer subtraction), monetary amounts are rationals. -/
import Mathlib

namespace Amazon

/-- One row of the cleaned transaction table, with the columns the dashboard
pages read. `subcategory` is optional because the CSV may hold nulls there;
`order_date` is the day number of the timestamp. -/
structure Row where
  customer_id : String
  order_date : Int
  transaction_id : String
  final_amount_inr : Rat
  order_year : Nat
  order_month : Nat
  subcategory : Option String
  is_prime_member : Nat
  return_status : String
deriving DecidableEq

/-- Series.max() on a column of dates (callers only use it on non-empty
columns, where the default is irrelevant). -/
def colMax (dates : List Int) : Int := dates.maximum.unbot' 0

/-- The group of rows belonging to one customer, as produced by
groupby("customer_id"). -/
def customerRows (data : List Row) (c : String) : List Row :=
  data.filter (fun r => decide (r.customer_id = c))

/-- The distinct customer ids of the table: the keys of
groupby("customer_id").  pandas emits the keys sorted; we keep
first-occurrence order, which no claim distinguishes. -/
def customerKeys (data : List Row) : List String :=
  (data.map (·.customer_id)).dedup

/-- One row of the RFM table built in compute_rfm
(pages/3. Customer_Analytics.py): columns renamed to
customer_id, recency, frequency, monetary. -/
structure RFMRow where
  customer_id : String
  recency : Int
  frequency : Nat
  monetary : Rat
deriving DecidableEq

/-- The aggregation step of compute_rfm: groupby("customer_id").agg with
recency = (data.order_date.max() - x.max()).days, frequency = count of
transaction_id (non-null throughout this model), monetary = sum of
final_amount_inr. -/
def rfmAgg (data : List Row) : List RFMRow :=
  (customerKeys data).map (fun c =>
    { customer_id := c
      recency := colMax (data.map (·.order_date)) -
        colMax ((customerRows data c).map (·.order_date))
      frequency := (customerRows data c).length
      monetary := ((customerRows data c).map (·.final_amount_inr)).sum })

lemma mem_customerRows {data : List Row} {c : String} {r : Row} :
    r ∈ customerRows data c ↔ r ∈ data ∧ r.customer_id = c := by
  simp [customerRows, List.mem_filter]

lemma colMax_customerRows_le (data : List Row) (c : String)
    (hc : c ∈ data.map (·.customer_id)) :
    colMax ((customerRows data c).map (·.order_date)) ≤
      colMax (data.map (·.order_date)) := by
  obtain ⟨r, hr, hrc⟩ := List.mem_map.mp hc
  have hrg : r ∈ customerRows data c := mem_customerRows.mpr ⟨hr, hrc⟩
  have hd : r.order_date ∈ (customerRows data c).map (·.order_date) :=
    List.mem_map_of_mem _ hrg
  cases hg : ((customerRows data c).map (·.order_date)).maximum with
  | bot =>
      exfalso
      have hle := List.le_maximum_of_mem' hd
      rw [hg] at hle
      exact absurd hle (by simp)
  | coe m =>
      have hmem : m ∈ (customerRows data c).map (·.order_date) :=
        List.maximum_mem hg
      have hmem2 : m ∈ data.map (·.order_date) := by
        obtain ⟨s, hs, hsd⟩ := List.mem_map.mp hmem
        exact List.mem_map.mpr ⟨s, (mem_customerRows.mp hs).1, hsd⟩
      cases hG : (data.map (·.order_date)).maximum with
      | bot =>
          exfalso
          have hle := List.le_maximum_of_mem' hmem2
          rw [hG] at hle
          exact absurd hle (by simp)
      | coe M =>
          have hmM : m ≤ M := List.le_maximum_of_mem hmem2 hG
          simpa [colMax, hg, hG, WithBot.unbot'] using hmM

lemma rfmAgg_customer_ids (data : List Row) :
    (rfmAgg data).map (·.customer_id) = customerKeys data := by
  simp [rfmAgg, List.map_map, Function.comp_def]

/-- C1: on every non-empty table with the four columns, the RFM aggregation
yields one row per distinct customer; a customer's recency is the number of
days between the table's latest order_date and that customer's latest
order_date (in particular non-negative), its frequency is the number of rows
of that customer, and its monetary is the sum of final_amount_inr over those
rows. -/
theorem compute_rfm_aggregates (data : List Row) (hne : data ≠ []) :
    ((rfmAgg data).map (·.customer_id)).Nodup ∧
    (∀ c, c ∈ (rfmAgg data).map (·.customer_id) ↔ c ∈ data.map (·.customer_id)) ∧
    rfmAgg data ≠ [] ∧
    (∀ row ∈ rfmAgg data,
      row.recency = colMax (data.map (·.order_date)) -
        colMax ((customerRows data row.customer_id).map (·.order_date)) ∧
      0 ≤ row.recency ∧
      row.frequency = (customerRows data row.customer_id).length ∧
      row.monetary =
        ((customerRows data row.customer_id).map (·.final_amount_inr)).sum) := by
  refine ⟨?_, ?_, ?_, ?_⟩
  · rw [rfmAgg_customer_ids]
    exact List.nodup_dedup _
  · intro c
    rw [rfmAgg_customer_ids]
    exact List.mem_dedup
  · simp [rfmAgg, customerKeys, hne]
  · intro row hrow
    obtain ⟨c, hc, rfl⟩ := List.mem_map.mp hrow
    have hc' : c ∈ data.map (·.customer_id) := List.mem_dedup.mp hc
    exact ⟨rfl, by
      simpa using sub_nonneg.mpr (colMax_customerRows_le data c hc'), rfl, rfl⟩

/-- Concrete sample rows used to instantiate hypotheses of the theorems. -/
def rowA : Row :=
  { customer_id := "CUST-1", order_date := 100, transaction_id := "T-1"
    final_amount_inr := 500, order_year := 2020, order_month := 1
    subcategory := some "Phones", is_prime_member := 1
    return_status := "Not Returned" }

def rowB : Row :=
  { customer_id := "CUST-2", order_date := 130, transaction_id := "T-2"
    final_amount_inr := 750, order_year := 2021, order_month := 3
    subcategory := some "Books", is_prime_member := 0
    return_status := "Returned" }

def sampleData : List Row := [rowA, rowB]

/-- Witness for C1: the theorem applied to a concrete two-row table. -/
theorem compute_rfm_aggregates_witness :
    ((rfmAgg sampleData).map (·.customer_id)).Nodup ∧ rfmAgg sampleData ≠ [] :=
  ⟨(compute_rfm_aggregates sampleData (by decide)).1,
   (compute_rfm_aggregates sampleData (by decide)).2.2.1⟩

/-- The CLV table of pages/3. Customer_Analytics.py:
filtered_df.groupby("customer_id")["final_amount_inr"].sum().reset_index(). -/
def clv (data : List Row) : List (String × Rat) :=
  (customerKeys data).map (fun c =>
    (c, ((customerRows data c).map (·.final_amount_inr)).sum))

/-- C4: the CLV table has exactly one entry per customer of the filtered
data, and that entry's value is the sum of final_amount_inr over exactly
that customer's rows. -/
theorem clv_correct (data : List Row) :
    ((clv data).map Prod.fst).Nodup ∧
    (∀ c, c ∈ (clv data).map Prod.fst ↔ c ∈ data.map (·.customer_id)) ∧
    (∀ p ∈ clv data,
      p.2 = ((customerRows data p.1).map (·.final_amount_inr)).sum) := by
  have hkeys : (clv data).map Prod.fst = customerKeys data := by
    simp [clv, List.map_map, Function.comp_def]
  refine ⟨?_, ?_, ?_⟩
  · rw [hkeys]; exact List.nodup_dedup _
  · intro c; rw [hkeys]; exact List.mem_dedup
  · intro p hp
    obtain ⟨c, _, rfl⟩ := List.mem_map.mp hp
    rfl

/-- Witness for C4: the theorem applied at a concrete table and a concrete
entry of its CLV list. -/
theorem clv_correct_witness :
    ("CUST-1", (500 : Rat)) ∈ clv sampleData ∧
    ((500 : Rat)) =
      ((customerRows sampleData "CUST-1").map (·.final_amount_inr)).sum :=
  have h : ("CUST-1", (500 : Rat)) ∈ clv sampleData := by
    simp [clv, sampleData, customerKeys, customerRows, rowA, rowB, List.filter]
  ⟨h, (clv_correct sampleData).2.2 ("CUST-1", (500 : Rat)) h⟩

/-- The scikit-learn call contract for random_state: when a seed is given it
is used as is; only when random_state is None does the estimator draw fresh
entropy from the environment. -/
def resolveSeed (random_state : Option Nat) (entropy : Nat) : Nat :=
  random_state.getD entropy

/-- n_clusters passed to KMeans in compute_rfm. -/
def rfm_n_clusters : Nat := 4

/-- random_state passed to KMeans in compute_rfm. -/
def rfm_random_state : Option Nat := some 42

/-- The (recency, frequency, monetary) feature matrix handed to
StandardScaler.fit_transform. -/
def rfmFeatures (rfm : List RFMRow) : List (Int × Nat × Rat) :=
  rfm.map (fun r => (r.recency, r.frequency, r.monetary))

/-- compute_rfm of pages/3. Customer_Analytics.py: the RFM aggregation,
standard-scaled and segmented by KMeans(n_clusters=4, random_state=42).
The numeric library routines are abstracted: `fitTransform` is
StandardScaler().fit_transform, `fitPredict n s` is
KMeans(n_clusters=n, random_state=s).fit_predict where `s` is the resolved
seed, and `entropy` is the environment randomness an unseeded estimator
would consume. The result attaches the segment labels to the RFM rows. -/
def compute_rfm {α : Type} (fitTransform : List (Int × Nat × Rat) → α)
    (fitPredict : Nat → Nat → α → List Nat) (entropy : Nat)
    (data : List Row) : List (RFMRow × Nat) :=
  let rfm := rfmAgg data
  let rfm_scaled := fitTransform (rfmFeatures rfm)
  let segments :=
    fitPredict rfm_n_clusters (resolveSeed rfm_random_state entropy) rfm_scaled
  rfm.zip segments

/-- C2: the segmentation standard-scales the three RFM columns and runs
k-means with exactly 4 clusters and the fixed seed 42; hence the result does
not depend on the environment's randomness, so two runs on the same table
(with the same library implementations) produce identical segment
assignments. -/
theorem compute_rfm_deterministic :
    rfm_n_clusters = 4 ∧ rfm_random_state = some 42 ∧
    ∀ {α : Type} (fitTransform : List (Int × Nat × Rat) → α)
      (fitPredict : Nat → Nat → α → List Nat)
      (entropy₁ entropy₂ : Nat) (data : List Row),
      compute_rfm fitTransform fitPredict entropy₁ data =
        compute_rfm fitTransform fitPredict entropy₂ data :=
  ⟨rfl, rfl, fun _ _ _ _ _ => rfl⟩

/-- df["final_amount_inr"].sum() on the home page (streamlit_app.py). -/
def home_total_revenue (df : List Row) : Rat :=
  (df.map (·.final_amount_inr)).sum

/-- df["customer_id"].nunique() on the home page. -/
def home_active_customers (df : List Row) : Nat :=
  (df.map (·.customer_id)).dedup.length

/-- df["transaction_id"].nunique() on the home page. -/
def home_total_orders (df : List Row) : Nat :=
  (df.map (·.transaction_id)).dedup.length

/-- df["final_amount_inr"].mean() on the home page (NaN on an empty column
is modelled as none). -/
def home_avg_order_value (df : List Row) : Option Rat :=
  if df.isEmpty then none
  else some ((df.map (·.final_amount_inr)).sum / (df.length : Rat))

/-- df["final_amount_inr"].sum() on pages/1. Executive_Dashboard.py. -/
def exec_total_revenue (df : List Row) : Rat :=
  (df.map (·.final_amount_inr)).sum

/-- df["transaction_id"].nunique() on the Executive Dashboard. -/
def exec_total_orders (df : List Row) : Nat :=
  (df.map (·.transaction_id)).dedup.length

/-- df["customer_id"].nunique() on the Executive Dashboard. -/
def exec_active_customers (df : List Row) : Nat :=
  (df.map (·.customer_id)).dedup.length

/-- df["final_amount_inr"].mean() on the Executive Dashboard. -/
def exec_avg_order_value (df : List Row) : Option Rat :=
  if df.isEmpty then none
  else some ((df.map (·.final_amount_inr)).sum / (df.length : Rat))

/-- C5: on every loaded table, Total Revenue is the sum of final_amount_inr
over all rows, Active Customers the number of distinct customer_id values,
Total Orders the number of distinct transaction_id values, and Avg Order
Value the arithmetic mean of final_amount_inr (undefined only on an empty
table); the home page and the Executive Dashboard agree on all four. -/
theorem kpi_definitions_agree (df : List Row) :
    home_total_revenue df = exec_total_revenue df ∧
    home_active_customers df = exec_active_customers df ∧
    home_total_orders df = exec_total_orders df ∧
    home_avg_order_value df = exec_avg_order_value df ∧
    home_total_revenue df = (df.map (·.final_amount_inr)).sum ∧
    home_active_customers df = (df.map (·.customer_id)).toFinset.card ∧
    home_total_orders df = (df.map (·.transaction_id)).toFinset.card ∧
    home_avg_order_value df =
      (if df.isEmpty then none
       else some (home_total_revenue df / (df.length : Rat))) :=
  ⟨rfl, rfl, rfl, rfl, rfl,
   (List.card_toFinset _).symm, (List.card_toFinset _).symm, rfl⟩

/-- Series.rolling(window, min_periods).mean() over a column with no nulls:
entry i is the mean of the trailing window ending at i, or NaN (none) when
the window holds fewer than min_periods observations. -/
def rollingMean (window minp : Nat) (xs : List Rat) : List (Option Rat) :=
  (List.range xs.length).map (fun i =>
    let win := (xs.take (i + 1)).drop (i + 1 - window)
    if minp ≤ win.length then some (win.sum / (win.length : Rat)) else none)

/-- The keys of df.groupby(["order_year", "order_month"]), sorted the way
pandas sorts them (lexicographically ascending). -/
def monthKeys (df : List Row) : List (Nat × Nat) :=
  ((df.map (fun r => (r.order_year, r.order_month))).dedup).mergeSort
    (fun a b => decide (a.1 < b.1 ∨ (a.1 = b.1 ∧ a.2 ≤ b.2)))

/-- The rows of one (order_year, order_month) group. -/
def monthRows (df : List Row) (ym : Nat × Nat) : List Row :=
  df.filter (fun r => decide (r.order_year = ym.1 ∧ r.order_month = ym.2))

/-- monthly_sales["final_amount_inr"] of pages/6. Advance_Analytics .py:
df.groupby(["order_year", "order_month"])["final_amount_inr"].sum(). -/
def monthlyRevenue (df : List Row) : List Rat :=
  (monthKeys df).map (fun ym => ((monthRows df ym).map (·.final_amount_inr)).sum)

/-- monthly_sales["trend"]: the monthly revenue series rolled with
window=6, min_periods=1 and averaged. -/
def trend (df : List Row) : List (Option Rat) :=
  rollingMean 6 1 (monthlyRevenue df)

/-- The claim's reading of the trend series: the arithmetic mean of the
series values at indices max(0, i-5) .. i (truncated subtraction supplies
the max with 0). -/
def windowMeanSpec (xs : List Rat) (i : Nat) : Rat :=
  let idx := List.range' (i - 5) (i + 1 - (i - 5))
  ((idx.map (fun j => xs.getD j 0)).sum) / ((idx.length : Nat) : Rat)

lemma take_drop_as_range (xs : List Rat) (lo n : Nat) (h : lo + n ≤ xs.length) :
    (xs.take (lo + n)).drop lo = (List.range' lo n).map (fun j => xs.getD j 0) := by
  apply List.ext_getElem
  · simp only [List.length_drop, List.length_take, List.length_map,
      List.length_range']
    omega
  · intro k h1 h2
    have hk : k < n := by
      simpa [List.length_range'] using h2
    have hlt : lo + k < xs.length := by omega
    rw [List.getElem_drop, List.getElem_take, List.getElem_map,
      List.getElem_range']
    rw [List.getD_eq_getElem _ _ (by omega : lo + 1 * k < xs.length)]
    simp

lemma rollingMean_6_1_spec (xs : List Rat) (i : Nat) (h : i < xs.length) :
    (rollingMean 6 1 xs).getD i none = some (windowMeanSpec xs i) := by
  have hl : i < ((List.range xs.length).map (fun i =>
      let win := (xs.take (i + 1)).drop (i + 1 - 6)
      if 1 ≤ win.length then some (win.sum / (win.length : Rat)) else none)).length := by
    simpa using h
  rw [rollingMean, List.getD_eq_getElem _ _ hl, List.getElem_map,
    List.getElem_range]
  have h1 : (i - 5) + ((i + 1) - (i - 5)) = i + 1 := by omega
  have hwin : (xs.take (i + 1)).drop (i + 1 - 6) =
      (List.range' (i - 5) ((i + 1) - (i - 5))).map (fun j => xs.getD j 0) := by
    have hseg := take_drop_as_range xs (i - 5) ((i + 1) - (i - 5)) (by omega)
    rw [h1] at hseg
    have h2 : i + 1 - 6 = i - 5 := by omega
    rw [h2]
    exact hseg
  show (if 1 ≤ ((xs.take (i + 1)).drop (i + 1 - 6)).length then
      some (((xs.take (i + 1)).drop (i + 1 - 6)).sum /
        (((xs.take (i + 1)).drop (i + 1 - 6)).length : Rat)) else none) =
    some (windowMeanSpec xs i)
  rw [hwin]
  simp only [List.length_map, List.length_range']
  rw [if_pos (by omega : 1 ≤ (i + 1) - (i - 5))]
  simp [windowMeanSpec, List.length_range']

/-- C3: the Advanced Analytics trend series has the same length as the
monthly revenue series, and at every index i (the first five included) it is
defined and equals the arithmetic mean of the monthly revenue values at
indices max(0, i-5) through i. -/
theorem trend_is_trailing_mean (df : List Row) (i : Nat)
    (h : i < (monthlyRevenue df).length) :
    (trend df).length = (monthlyRevenue df).length ∧
    (trend df).getD i none = some (windowMeanSpec (monthlyRevenue df) i) := by
  refine ⟨?_, rollingMean_6_1_spec _ i h⟩
  simp [trend, rollingMean]

/-- Witness for C3: a one-row table has a one-point monthly series, and the
trend at index 0 is its trailing mean. -/
theorem trend_is_trailing_mean_witness :
    (trend [rowA]).getD 0 none = some (windowMeanSpec (monthlyRevenue [rowA]) 0) :=
  (trend_is_trailing_mean [rowA] 0 (by
    simp [monthlyRevenue, monthKeys, rowA])).2

/-- The body of every page's load_data: one read of the cleaned CSV (the
pages also parse order_date; the home page's to_datetime is the identity).
`fs` maps a path to the table the filesystem holds for it during the
session. -/
def load_data_body {δ : Type} (fs : String → δ) (to_datetime : δ → δ) : δ :=
  to_datetime (fs "cleaned/transactions_cleaned.csv")

/-- One invocation of an @st.cache_data-decorated function: a cache hit
returns the stored value with no underlying call, a miss runs the body once
and stores the result. Returns (result, new cache, underlying calls). -/
def cachedCall {δ : Type} (f : Unit → δ) : Option δ → δ × Option δ × Nat
  | none => (f (), some (f ()), 1)
  | some v => (v, some v, 0)

/-- n successive invocations of the cached function within one session:
the list of returned values, the final cache, and the total number of
underlying body runs. -/
def runSession {δ : Type} (f : Unit → δ) : Nat → Option δ → List δ × Option δ × Nat
  | 0, c => ([], c, 0)
  | n + 1, c =>
    let r := cachedCall f c
    let rest := runSession f n r.2.1
    (r.1 :: rest.1, rest.2.1, r.2.2 + rest.2.2)

lemma runSession_cached {δ : Type} (f : Unit → δ) (v : δ) :
    ∀ n, runSession f n (some v) = (List.replicate n v, some v, 0)
  | 0 => rfl
  | n + 1 => by
    simp [runSession, cachedCall, runSession_cached f v n, List.replicate_succ]

/-- C7: starting from an empty cache, every one of the n invocations of the
memoized load_data returns exactly the value of the single plain read (CSV
read plus date parsing), and the underlying read runs min n 1 times — at
most once per session. -/
theorem load_data_cached_single_read {δ : Type} (fs : String → δ)
    (to_datetime : δ → δ) (n : Nat) :
    (runSession (fun _ => load_data_body fs to_datetime) n none).1 =
      List.replicate n (load_data_body fs to_datetime) ∧
    (runSession (fun _ => load_data_body fs to_datetime) n none).2.2 =
      min n 1 := by
  cases n with
  | zero => exact ⟨rfl, rfl⟩
  | succ n =>
    constructor
    · simp [runSession, cachedCall, runSession_cached, List.replicate_succ]
    · simp [runSession, cachedCall, runSession_cached]

/-- Series.str.lower(): character-wise lowercasing of the cell value. -/
def strLower (s : String) : String := ⟨s.data.map Char.toLower⟩

/-- return_flag of pages/5. Operations_Analytics.py:
return_status.astype(str).str.lower().isin(["returned", "yes", "y",
"true", "1"]).astype(int). -/
def return_flag (return_status : String) : Nat :=
  if strLower return_status ∈ ["returned", "yes", "y", "true", "1"] then 1
  else 0

/-- The per-row predicate of the Advanced Analytics Return Rate metric:
return_status.astype(str).str.lower().isin(["returned"]). -/
def advReturned (return_status : String) : Bool :=
  decide (strLower return_status ∈ (["returned"] : List String))

/-- C8 counterexample: on a row with return_status "Yes" the Operations page
flags a return while the Advanced page's predicate does not, although the
lowercased status is not "returned" — so the two classifiers disagree and
the Operations one is not the lowercase-equals-returned test. -/
theorem return_classifiers_disagree :
    return_flag "Yes" = 1 ∧ advReturned "Yes" = false ∧
    strLower "Yes" ≠ "returned" := by
  refine ⟨?_, ?_, ?_⟩ <;> decide

lemma return_flag_eq_one_iff (s : String) :
    return_flag s = 1 ↔
      strLower s ∈ ["returned", "yes", "y", "true", "1"] := by
  unfold return_flag
  split <;> simp_all

lemma advReturned_iff (s : String) :
    advReturned s = true ↔ strLower s = "returned" := by
  simp [advReturned]

/-- C8 amended: the Advanced page classifies a row as returned exactly when
its lowercased return_status is "returned"; the Operations page additionally
flags "yes", "y", "true" and "1". Hence the Advanced predicate implies the
Operations flag, and the two agree on a row exactly when its lowercased
return_status is not one of those four extra values. -/
theorem return_classifiers_relation (s : String) :
    (advReturned s = true → return_flag s = 1) ∧
    (advReturned s = true ↔ strLower s = "returned") ∧
    (return_flag s = 1 ↔
      strLower s ∈ ["returned", "yes", "y", "true", "1"]) ∧
    ((return_flag s = 1 ↔ advReturned s = true) ↔
      strLower s ∉ (["yes", "y", "true", "1"] : List String)) := by
  refine ⟨?_, advReturned_iff s, return_flag_eq_one_iff s, ?_⟩
  · intro ha
    rw [advReturned_iff] at ha
    rw [return_flag_eq_one_iff, ha]
    decide
  · rw [return_flag_eq_one_iff, advReturned_iff]
    by_cases h1 : strLower s = "returned"
    · rw [h1]
      decide
    · simp [h1]

/-- Witness for C8's amended theorem: at return_status "Returned" the
Advanced predicate holds and therefore so does the Operations flag. -/
theorem return_classifiers_relation_witness : return_flag "Returned" = 1 :=
  (return_classifiers_relation "Returned").1 (by decide)

/-- The Revenue (and Product) page filter:
df[df["order_year"].isin(years) & df["subcategory"].isin(cats)].
A null subcategory fails isin against any selection list. -/
def revenueFiltered (years : List Nat) (cats : List String)
    (df : List Row) : List Row :=
  df.filter (fun r => decide (r.order_year ∈ years) &&
    (match r.subcategory with
     | some c => decide (c ∈ cats)
     | none => false))

/-- The Customer page filter: df[df["order_year"].isin(years)], then, when
the Prime selectbox is not "All" (modelled as none), a second equality
filter on is_prime_member. -/
def customerFiltered (years : List Nat) (prime : Option Nat)
    (df : List Row) : List Row :=
  let f1 := df.filter (fun r => decide (r.order_year ∈ years))
  match prime with
  | none => f1
  | some p => f1.filter (fun r => decide (r.is_prime_member = p))

/-- The Operations and Advanced page filter: df[df["order_year"].isin(years)]. -/
def opsFiltered (years : List Nat) (df : List Row) : List Row :=
  df.filter (fun r => decide (r.order_year ∈ years))

/-- The year multiselect options, sorted(df["order_year"].unique()): as a
selection set, the distinct order_year values. -/
def allYears (df : List Row) : List Nat :=
  (df.map (·.order_year)).dedup

/-- The subcategory multiselect options,
sorted(df["subcategory"].dropna().unique()): the distinct non-null
subcategories. -/
def allCats (df : List Row) : List String :=
  (df.filterMap (·.subcategory)).dedup

/-- A row whose subcategory is null. -/
def rowNullSub : Row :=
  { customer_id := "CUST-3", order_date := 50, transaction_id := "T-3"
    final_amount_inr := 100, order_year := 2020, order_month := 2
    subcategory := none, is_prime_member := 0
    return_status := "Not Returned" }

/-- C9 counterexample: on a table holding a row with a null subcategory,
selecting every offered year and every offered category still drops that
row, so filtered_df differs from df. -/
theorem revenueFiltered_all_ne_df :
    revenueFiltered (allYears [rowNullSub]) (allCats [rowNullSub])
      [rowNullSub] ≠ [rowNullSub] := by
  decide

/-- C9 amended: every page's filtered_df is a row-selection of df (a
sublist whose members are exactly the rows passing the page's predicates,
values untouched); selecting all years and, on the category pages, all
offered (hence non-null) categories yields the rows of df with a non-null
subcategory — all of df exactly when no subcategory is null — while on the
year-only pages (and with Prime "All") it yields df itself. -/
theorem filtered_is_row_selection (df : List Row) (years : List Nat)
    (cats : List String) (prime : Option Nat) :
    (revenueFiltered years cats df).Sublist df ∧
    (∀ r, r ∈ revenueFiltered years cats df ↔
      r ∈ df ∧ r.order_year ∈ years ∧
        ∃ c, r.subcategory = some c ∧ c ∈ cats) ∧
    (customerFiltered years prime df).Sublist df ∧
    (∀ r, r ∈ customerFiltered years prime df ↔
      r ∈ df ∧ r.order_year ∈ years ∧
        ∀ p, prime = some p → r.is_prime_member = p) ∧
    (opsFiltered years df).Sublist df ∧
    (∀ r, r ∈ opsFiltered years df ↔ r ∈ df ∧ r.order_year ∈ years) ∧
    revenueFiltered (allYears df) (allCats df) df =
      df.filter (fun r => r.subcategory.isSome) ∧
    customerFiltered (allYears df) none df = df ∧
    opsFiltered (allYears df) df = df := by
  have hyears : ∀ r ∈ df, r.order_year ∈ allYears df := by
    intro r hr
    exact List.mem_dedup.mpr (List.mem_map_of_mem _ hr)
  have hops : opsFiltered (allYears df) df = df := by
    apply List.filter_eq_self.mpr
    intro r hr
    simpa using hyears r hr
  refine ⟨List.filter_sublist df, ?_, ?_, ?_, List.filter_sublist df, ?_,
    ?_, ?_, hops⟩
  · intro r
    simp only [revenueFiltered, List.mem_filter, Bool.and_eq_true,
      decide_eq_true_eq]
    cases hsc : r.subcategory with
    | none => simp [hsc]
    | some c => simp [hsc, and_assoc]
  · cases prime with
    | none => exact List.filter_sublist df
    | some p => exact (List.filter_sublist _).trans (List.filter_sublist df)
  · intro r
    cases prime with
    | none =>
        simp [customerFiltered, List.mem_filter, and_assoc]
    | some p =>
        simp only [customerFiltered, List.mem_filter, Bool.and_eq_true,
          decide_eq_true_eq, Option.some.injEq]
        constructor
        · rintro ⟨⟨hr, hy⟩, hp⟩
          exact ⟨hr, hy, fun q hq => hq ▸ hp⟩
        · rintro ⟨hr, hy, hp⟩
          exact ⟨⟨hr, hy⟩, hp p rfl⟩
  · intro r
    simp [opsFiltered, List.mem_filter]
  · rw [revenueFiltered]
    apply List.filter_congr
    intro r hr
    cases hsc : r.subcategory with
    | none => simp [hsc]
    | some c =>
        have hc : c ∈ allCats df :=
          List.mem_dedup.mpr (List.mem_filterMap.mpr ⟨r, hr, hsc⟩)
        simp [hsc, hyears r hr, hc]
  · show opsFiltered (allYears df) df = df
    exact hops

/-- Witness for C9's amended theorem: a concrete row passes the Revenue
filter, and selecting all years on a year-only page returns the whole
table. -/
theorem filtered_is_row_selection_witness :
    rowA ∈ revenueFiltered [2020] ["Phones"] sampleData ∧
    opsFiltered (allYears sampleData) sampleData = sampleData :=
  ⟨((filtered_is_row_selection sampleData [2020] ["Phones"] none).2.1
      rowA).mpr ⟨by decide, by decide, "Phones", rfl, by decide⟩,
   (filtered_is_row_selection sampleData (allYears sampleData) []
      none).2.2.2.2.2.2.2.2⟩

/-- One rendered unit of a page: a plotly chart (by title), an st.info
message, or an st.caption note. -/
inductive PageItem where
  | chart (title : String)
  | info (msg : String)
  | caption (msg : String)
deriving DecidableEq

def PageItem.isChart : PageItem → Bool
  | .chart _ => true
  | _ => false

/-- The chart/caption output of pages/2. Revenue_Analytics.py before the
price-and-discount section, in source order. -/
def revenueSectionsBefore : List PageItem :=
  [.chart "Yearly Revenue Trend",
   .chart "Quarterly Revenue Comparison",
   .caption "Revenue trends reveal long-term growth and quarterly seasonality.",
   .chart "Monthly Revenue Distribution",
   .caption "Peak months indicate seasonal demand and promotional effectiveness.",
   .chart "Revenue Contribution by Category",
   .caption "Category-level insights highlight core revenue drivers.",
   .chart "Top 10 States by Revenue",
   .chart "Top 10 Cities by Revenue",
   .caption "Metro and Tier-1 cities contribute a significant share of revenue.",
   .chart "Festival vs Non-Festival Revenue",
   .caption "Festival campaigns drive significant revenue spikes."]

/-- Q10 of the Revenue page: scatter plus caption when "discount_percent"
is a column of filtered_df, else a single info message. -/
def revenueDiscountSection (cols : List String) : List PageItem :=
  if "discount_percent" ∈ cols then
    [.chart "Discount Percentage vs Revenue",
     .caption "Optimal discount ranges improve revenue without eroding margins."]
  else [.info "Discount data not available."]

/-- The Revenue page's chart output: the unconditional sections followed by
the conditional discount section (the footer renders no chart). -/
def revenuePage (cols : List String) : List PageItem :=
  revenueSectionsBefore ++ revenueDiscountSection cols

/-- The chart/caption output of pages/5. Operations_Analytics.py before the
customer-satisfaction section, in source order. -/
def opsSectionsBefore : List PageItem :=
  [.chart "Delivery Time Distribution (Days)",
   .chart "Fastest Delivery Cities",
   .caption "Faster deliveries improve customer satisfaction and repeat purchases.",
   .chart "Payment Method Usage Over Time",
   .caption "Digital payment methods show strong adoption over the decade.",
   .chart "Return Rate by Category",
   .caption "High return categories indicate quality or expectation gaps."]

/-- Q24 of the Operations page: rating chart plus caption when
"customer_rating" is a column of filtered_df, else a single info message. -/
def opsRatingSection (cols : List String) : List PageItem :=
  if "customer_rating" ∈ cols then
    [.chart "Customer Rating Distribution",
     .caption "Higher ratings correlate with faster delivery and fewer returns."]
  else [.info "Customer rating data not available."]

/-- The supply-chain section that follows the conditional one. -/
def opsSectionsAfter : List PageItem :=
  [.chart "Delivery Time Variability by Category",
   .chart "Overall Delivery Performance Distribution",
   .caption "Operational consistency is key to supply chain efficiency."]

/-- The Operations page's chart output. -/
def operationsPage (cols : List String) : List PageItem :=
  opsSectionsBefore ++ opsRatingSection cols ++ opsSectionsAfter

/-- C6: on each page the optional-column section renders its chart exactly
when the column is present and only an info message (no chart) when it is
absent, and the remainder of the page's output is the same fixed prefix and
suffix whatever the column set — the skipped section changes nothing else. -/
theorem optional_column_sections (colsR colsO : List String) :
    ("discount_percent" ∈ colsR →
      revenueDiscountSection colsR =
        [PageItem.chart "Discount Percentage vs Revenue",
         PageItem.caption
           "Optimal discount ranges improve revenue without eroding margins."]) ∧
    ("discount_percent" ∉ colsR →
      revenueDiscountSection colsR =
        [PageItem.info "Discount data not available."] ∧
      ∀ s ∈ revenueDiscountSection colsR, s.isChart = false) ∧
    (∃ pre post, ∀ cols,
      revenuePage cols = pre ++ revenueDiscountSection cols ++ post) ∧
    ("customer_rating" ∈ colsO →
      opsRatingSection colsO =
        [PageItem.chart "Customer Rating Distribution",
         PageItem.caption
           "Higher ratings correlate with faster delivery and fewer returns."]) ∧
    ("customer_rating" ∉ colsO →
      opsRatingSection colsO =
        [PageItem.info "Customer rating data not available."] ∧
      ∀ s ∈ opsRatingSection colsO, s.isChart = false) ∧
    (∃ pre post, ∀ cols,
      operationsPage cols = pre ++ opsRatingSection cols ++ post) := by
  refine ⟨?_, ?_, ⟨revenueSectionsBefore, [], fun cols => by
      simp [revenuePage]⟩, ?_, ?_,
    ⟨opsSectionsBefore, opsSectionsAfter, fun cols => rfl⟩⟩
  · intro h
    simp [revenueDiscountSection, h]
  · intro h
    refine ⟨if_neg h, ?_⟩
    rw [revenueDiscountSection, if_neg h]
    intro s hs
    rw [List.mem_singleton] at hs
    subst hs
    rfl
  · intro h
    simp [opsRatingSection, h]
  · intro h
    refine ⟨if_neg h, ?_⟩
    rw [opsRatingSection, if_neg h]
    intro s hs
    rw [List.mem_singleton] at hs
    subst hs
    rfl

/-- Witness for C6: with the discount column present the Revenue page
renders the scatter, and with no columns the Operations page renders the
info message. -/
theorem optional_column_sections_witness :
    revenueDiscountSection ["discount_percent"] =
      [PageItem.chart "Discount Percentage vs Revenue",
       PageItem.caption
         "Optimal discount ranges improve revenue without eroding margins."] ∧
    opsRatingSection [] = [PageItem.info "Customer rating data not available."] :=
  ⟨(optional_column_sections ["discount_percent"] []).1 (by decide),
   ((optional_column_sections ["discount_percent"] []).2.2.2.2.1 (by decide)).1⟩

/-- The home page's view of the loaded table: its column list and its rows
(the four KPI columns hold the corresponding Row fields when present). -/
structure HomeDF where
  cols : List String
  rows : List Row
deriving DecidableEq

/-- Outcome of load_data() on the home page: a table, or a raised
exception's message. -/
inductive LoadResult where
  | ok (df : HomeDF)
  | exn (msg : String)
deriving DecidableEq

/-- The four KPI metrics of the home page snapshot. -/
structure KPIs where
  total_revenue : Rat
  active_customers : Nat
  total_orders : Nat
  avg_order_value : Option Rat
deriving DecidableEq

/-- What the home page script emitted: st.error messages, st.write payloads
(label and column list), the rendered KPI metrics if any, and whether
st.stop() ended the script. -/
structure HomeRender where
  errors : List String
  writes : List (String × List String)
  kpis : Option KPIs
  stopped : Bool
deriving DecidableEq

/-- The KPI try-block of streamlit_app.py: each df[...] access checks its
column and raises KeyError (the column name) if absent, in source order;
otherwise the four metrics are computed. -/
def kpiBlock (df : HomeDF) : Except String KPIs :=
  if "final_amount_inr" ∈ df.cols then
    if "customer_id" ∈ df.cols then
      if "transaction_id" ∈ df.cols then
        Except.ok
          { total_revenue := home_total_revenue df.rows
            active_customers := home_active_customers df.rows
            total_orders := home_total_orders df.rows
            avg_order_value := home_avg_order_value df.rows }
      else Except.error "transaction_id"
    else Except.error "customer_id"
  else Except.error "final_amount_inr"

/-- streamlit_app.py top to KPI rendering: a load exception is reported and
stops the script; an empty table is reported and stops it; a KeyError in the
KPI block is caught, reported together with the available columns, and stops
it; otherwise the four KPI metrics are rendered. -/
def homePage (load : LoadResult) : HomeRender :=
  match load with
  | .exn e =>
      { errors := ["❌ Error loading dataset:", e], writes := []
        kpis := none, stopped := true }
  | .ok df =>
      if df.rows.isEmpty then
        { errors := ["Dataset loaded but is empty."], writes := []
          kpis := none, stopped := true }
      else
        match kpiBlock df with
        | .error c =>
            { errors := ["❌ Column missing in dataset:", c]
              writes := [("Available columns:", df.cols)]
              kpis := none, stopped := true }
        | .ok k =>
            { errors := [], writes := [], kpis := some k, stopped := false }

/-- Some KPI column among final_amount_inr, customer_id, transaction_id is
absent from the table. -/
def missingKPICol (df : HomeDF) : Prop :=
  ¬("final_amount_inr" ∈ df.cols ∧ "customer_id" ∈ df.cols ∧
    "transaction_id" ∈ df.cols)

instance (df : HomeDF) : Decidable (missingKPICol df) := by
  unfold missingKPICol
  infer_instance

/-- C10: whenever the load raises, or the table is empty, or a KPI column is
missing, the home page reports an error and stops with no KPI computed or
rendered; in the missing-column case the available columns are also
written out. -/
theorem home_page_fails_atomically (load : LoadResult)
    (h : (∃ e, load = LoadResult.exn e) ∨
      (∃ df, load = LoadResult.ok df ∧ df.rows = []) ∨
      (∃ df, load = LoadResult.ok df ∧ missingKPICol df)) :
    (homePage load).kpis = none ∧ (homePage load).stopped = true ∧
    (homePage load).errors ≠ [] ∧
    (∀ df, load = LoadResult.ok df → df.rows ≠ [] → missingKPICol df →
      ("Available columns:", df.cols) ∈ (homePage load).writes) := by
  rcases h with ⟨e, rfl⟩ | ⟨df, rfl, hrows⟩ | ⟨df, rfl, hmiss⟩
  · refine ⟨rfl, rfl, by simp [homePage], ?_⟩
    intro df h
    cases h
  · have hE : df.rows.isEmpty = true := by simp [hrows]
    refine ⟨by simp [homePage, hE], by simp [homePage, hE],
      by simp [homePage, hE], ?_⟩
    intro df' h hne _
    injection h with h'
    subst h'
    exact absurd hrows hne
  · by_cases hrows : df.rows = []
    · have hE : df.rows.isEmpty = true := by simp [hrows]
      refine ⟨by simp [homePage, hE], by simp [homePage, hE],
        by simp [homePage, hE], ?_⟩
      intro df' h hne _
      injection h with h'
      subst h'
      exact absurd hrows hne
    · have hE : df.rows.isEmpty = false := by
        simpa [List.isEmpty_iff] using hrows
      obtain ⟨c, hc⟩ : ∃ c, kpiBlock df = Except.error c := by
        unfold missingKPICol at hmiss
        unfold kpiBlock
        by_cases h1 : "final_amount_inr" ∈ df.cols <;>
          by_cases h2 : "customer_id" ∈ df.cols <;>
            by_cases h3 : "transaction_id" ∈ df.cols <;>
              simp_all
      refine ⟨by simp [homePage, hE, hc], by simp [homePage, hE, hc],
        by simp [homePage, hE, hc], ?_⟩
      intro df' h _ _
      injection h with h'
      subst h'
      simp [homePage, hE, hc]

/-- A concrete table missing the final_amount_inr column. -/
def dfMissingCol : HomeDF := { cols := ["customer_id"], rows := [rowA] }

/-- Witness for C10: on a concrete non-empty table without the
final_amount_inr column, no KPI is produced and the available columns are
written out. -/
theorem home_page_fails_atomically_witness :
    (homePage (LoadResult.ok dfMissingCol)).kpis = none ∧
    ("Available columns:", dfMissingCol.cols) ∈
      (homePage (LoadResult.ok dfMissingCol)).writes :=
  have h := home_page_fails_atomically (LoadResult.ok dfMissingCol)
    (Or.inr (Or.inr ⟨dfMissingCol, rfl, by decide⟩))
  ⟨h.1, h.2.2.2 dfMissingCol rfl (by decide) (by decide)⟩

end Amazon
